import Mathlib

/-!
Verification of the real-time message synchronization core of the
Beyonder_Chat repository: the message lifecycle controllers
(backend/src/controllers/message.controller.js), the client-side
reconciliation store (frontend store useChatStore) and the sidebar
recency index.  JS strings are modelled as lists of codepoints
(`Token`), ids as natural numbers, and the external collaborators
(classifier, media store, socket registry, group membership) as
function parameters.
-/

namespace BeyonderChat

/-- A JS string is modelled as its list of character codepoints; the
empty list is the empty (falsy) string. -/
abbrev Token : Type := List Nat

/-- Modelled from the spec: the file lib/caesarCipher.js is not in the
source snapshot; the spec describes obscure as a deterministic
fixed-shift (key 4) substitution on the text. -/
def encryptCaesar (t : Token) : Token := t.map (fun n => n + 4)

/-- Modelled from the spec: the reveal half of the missing
lib/caesarCipher.js; the spec requires reveal and obscure to be
deterministic and mutually inverse. -/
def decryptCaesar (t : Token) : Token := t.map (fun n => n - 4)

theorem decryptCaesar_encryptCaesar (t : Token) : decryptCaesar (encryptCaesar t) = t := by
  simp [decryptCaesar, encryptCaesar, List.map_map, Function.comp_def]

/-- Whitespace codepoints recognised by the JS trim used in the send
validation (space, tab, line feed, carriage return). -/
def isWsCode (n : Nat) : Bool := n = 32 || n = 9 || n = 10 || n = 13

/-- Models the JS test `!text?.trim()`: true when the text is absent or
consists only of whitespace (trim yields the empty, falsy string). -/
def jsBlank : Option Token → Bool
  | none => true
  | some t => t.all isWsCode

/-! ## Client-side wire messages and the reconciliation store

The zustand chat store (useChatStore) keeps the ordered message list of
the active conversation and applies the four socket events to it.  A
wire message carries the populated ids as plain numbers. -/

/-- The message representation carried by the four socket events, with
the fields the client handlers read. -/
structure WireMsg where
  id : Nat
  senderId : Nat
  receiverId : Option Nat := none
  groupId : Option Nat := none
  text : Option Token := none
  edited : Bool := false
  deleted : Bool := false
  pinned : Bool := false
  createdAt : Nat
deriving DecidableEq, Repr

/-- The currently selected conversation of the chat store: a peer id,
and a group id when the conversation is a group. -/
structure SelectedUser where
  id : Nat
  groupId : Option Nat := none
deriving DecidableEq, Repr

/-- The newMessage handler of useChatStore (subscribeToMessages): the
relevance check followed by duplicate suppression and append.  When the
incoming message has no receiverId the JS dereference
newMessage.receiverId._id throws inside the handler and the list is
left unchanged, which is modelled as the relevance check failing. -/
def messageHandler (authUserId : Nat) (selU : SelectedUser) (newMessage : WireMsg)
    (messages : List WireMsg) : List WireMsg :=
  let isRelevantGroup : Bool :=
    selU.groupId.isSome && decide (newMessage.groupId = selU.groupId)
  let isRelevantDM : Bool :=
    selU.groupId.isNone &&
      (match newMessage.receiverId with
       | some r =>
           (decide (newMessage.senderId = selU.id) && decide (r = authUserId)) ||
           (decide (newMessage.senderId = authUserId) && decide (r = selU.id))
       | none => false)
  let isRelevant := isRelevantGroup || isRelevantDM
  if isRelevant then
    if messages.any (fun msg => msg.id = newMessage.id) then messages
    else messages ++ [newMessage]
  else messages

/-- The messageEdited handler of useChatStore: replace every entry whose
id matches by the incoming message, leave the rest unchanged. -/
def messageEditedHandler (editedMessage : WireMsg) (messages : List WireMsg) : List WireMsg :=
  messages.map (fun msg => if msg.id = editedMessage.id then editedMessage else msg)

/-- The messageDeleted handler of useChatStore; textually the same
replacement by id as the edited handler. -/
def messageDeletedHandler (deletedMessage : WireMsg) (messages : List WireMsg) : List WireMsg :=
  messages.map (fun msg => if msg.id = deletedMessage.id then deletedMessage else msg)

/-- The messagePinned handler of useChatStore; textually the same
replacement by id as the edited handler. -/
def messagePinnedHandler (pinnedMessage : WireMsg) (messages : List WireMsg) : List WireMsg :=
  messages.map (fun msg => if msg.id = pinnedMessage.id then pinnedMessage else msg)

/-- Relevance of a created event to the active conversation as the spec
states it: the message carries the group id of the conversation, or it
is a direct message whose unordered sender-receiver pair equals the
direct pair of the conversation (using the unordered pair type Sym2). -/
def specRelevant (authUserId : Nat) (selU : SelectedUser) (msg : WireMsg) : Bool :=
  (decide (selU.groupId ≠ none) && decide (msg.groupId = selU.groupId)) ||
  (decide (selU.groupId = none) &&
    (match msg.receiverId with
     | some r => decide (Sym2.mk (msg.senderId, r) = Sym2.mk (selU.id, authUserId))
     | none => false))

theorem specRelevant_eq_code (authUserId : Nat) (selU : SelectedUser) (msg : WireMsg) :
    specRelevant authUserId selU msg =
      ((selU.groupId.isSome && decide (msg.groupId = selU.groupId)) ||
       (selU.groupId.isNone &&
         (match msg.receiverId with
          | some r =>
              (decide (msg.senderId = selU.id) && decide (r = authUserId)) ||
              (decide (msg.senderId = authUserId) && decide (r = selU.id))
          | none => false))) := by
  unfold specRelevant
  rcases msg.receiverId with _ | r
  · cases selU.groupId <;> simp
  · cases selU.groupId <;>
      simp [Sym2.eq_iff, Bool.and_or_distrib_left, and_comm, eq_comm, Bool.and_comm]

theorem messageHandler_irrelevant_noop (authUserId : Nat) (selU : SelectedUser)
    (msg : WireMsg) (messages : List WireMsg)
    (h : specRelevant authUserId selU msg = false) :
    messageHandler authUserId selU msg messages = messages := by
  rw [specRelevant_eq_code] at h
  unfold messageHandler
  rcases hrc : msg.receiverId with _ | r <;>
    simp only [hrc] at h ⊢ <;> simp only [h, if_neg, Bool.false_eq_true, ite_false]

theorem messageHandler_nodup (authUserId : Nat) (selU : SelectedUser)
    (msg : WireMsg) (messages : List WireMsg)
    (h : (messages.map WireMsg.id).Nodup) :
    ((messageHandler authUserId selU msg messages).map WireMsg.id).Nodup := by
  unfold messageHandler
  by_cases hrel : (selU.groupId.isSome && decide (msg.groupId = selU.groupId) ||
      (selU.groupId.isNone &&
        (match msg.receiverId with
         | some r =>
             (decide (msg.senderId = selU.id) && decide (r = authUserId)) ||
             (decide (msg.senderId = authUserId) && decide (r = selU.id))
         | none => false))) = true
  · simp only [hrel, if_true]
    by_cases hdup : messages.any (fun m => m.id = msg.id) = true
    · simpa [hdup] using h
    · simp only [hdup, Bool.false_eq_true, ite_false, List.map_append, List.map_cons,
        List.map_nil, List.nodup_append]
      refine ⟨h, List.nodup_singleton _, ?_⟩
      intro a ha hb
      simp only [List.mem_singleton] at hb
      subst hb
      simp only [List.mem_map] at ha
      obtain ⟨x, hx, hxa⟩ := ha
      rw [List.any_eq_true] at hdup
      exact hdup ⟨x, hx, by simp [hxa]⟩
  · simp only [Bool.not_eq_true] at hrel
    simpa [hrel] using h

/-- C2: applying any sequence of created events to the reconciliation
store keeps the message list free of duplicate ids, and an event that is
not relevant to the active conversation leaves the list unchanged. -/
theorem createdEvents_nodup_and_irrelevant_skipped
    (authUserId : Nat) (selU : SelectedUser) (init : List WireMsg)
    (h : (init.map WireMsg.id).Nodup) (evs : List WireMsg) :
    ((evs.foldl (fun acc e => messageHandler authUserId selU e acc) init).map WireMsg.id).Nodup
    ∧ ∀ e : WireMsg, specRelevant authUserId selU e = false →
        messageHandler authUserId selU e init = init := by
  constructor
  · induction evs generalizing init with
    | nil => exact h
    | cons e es ih => exact ih _ (messageHandler_nodup authUserId selU e init h)
  · intro e he
    exact messageHandler_irrelevant_noop authUserId selU e init he

theorem createdEvents_witness :
    ((([⟨5, 1, some 2, none, none, false, false, false, 10⟩,
        ⟨5, 1, some 2, none, none, false, false, false, 10⟩,
        ⟨6, 9, some 8, none, none, false, false, false, 11⟩] : List WireMsg).foldl
          (fun acc e => messageHandler 2 ⟨1, none⟩ e acc) []).map WireMsg.id).Nodup
    ∧ messageHandler 2 ⟨1, none⟩ ⟨7, 5, some 6, none, none, false, false, false, 12⟩ [] = [] :=
  ⟨(createdEvents_nodup_and_irrelevant_skipped 2 ⟨1, none⟩ [] (by decide)
      [⟨5, 1, some 2, none, none, false, false, false, 10⟩,
       ⟨5, 1, some 2, none, none, false, false, false, 10⟩,
       ⟨6, 9, some 8, none, none, false, false, false, 11⟩]).1,
   (createdEvents_nodup_and_irrelevant_skipped 2 ⟨1, none⟩ [] (by decide) []).2
     ⟨7, 5, some 6, none, none, false, false, false, 12⟩ (by decide)⟩

/-- C4: the edited, deleted and pinned handlers are the same
substitution keyed by id; applying one is position-wise replacement of
exactly the entries whose id matches, it is idempotent, and a message
whose id matches no entry leaves the list unchanged. -/
theorem editedHandler_idempotent_upsert (m : WireMsg) (l : List WireMsg) :
    (messageDeletedHandler m = messageEditedHandler m
      ∧ messagePinnedHandler m = messageEditedHandler m)
    ∧ messageEditedHandler m (messageEditedHandler m l) = messageEditedHandler m l
    ∧ ((∀ x ∈ l, x.id ≠ m.id) → messageEditedHandler m l = l)
    ∧ ∀ i : Nat, (messageEditedHandler m l)[i]? =
        (l[i]?).map (fun x => if x.id = m.id then m else x) := by
  refine ⟨⟨rfl, rfl⟩, ?_, ?_, ?_⟩
  · unfold messageEditedHandler
    rw [List.map_map]
    apply List.map_congr_left
    intro x _
    by_cases hid : x.id = m.id <;> simp [hid]
  · intro hnone
    unfold messageEditedHandler
    conv_rhs => rw [← List.map_id l]
    apply List.map_congr_left
    intro x hx
    simp [hnone x hx]
  · intro i
    simp [messageEditedHandler, List.getElem?_map]

theorem editedHandler_witness :
    messageEditedHandler ⟨3, 1, some 2, none, none, true, false, false, 4⟩
      [⟨9, 1, some 2, none, none, false, false, false, 4⟩]
      = [⟨9, 1, some 2, none, none, false, false, false, 4⟩] :=
  (editedHandler_idempotent_upsert ⟨3, 1, some 2, none, none, true, false, false, 4⟩
    [⟨9, 1, some 2, none, none, false, false, false, 4⟩]).2.2.1 (by decide)

/-! ## Sidebar recency index

The sidebar keeps userLastMessageTime, a map from peer id to the
creation time of the last processed message, and sorts the conversation
list by it.  Its global newMessage listener is handleNewMessage. -/

/-- The sidebar newMessage listener (handleNewMessage in Sidebar): for a
message from another user it stores the creation time under the sender
id, for an own message with a receiver it stores it under the receiver
id.  The stored value is overwritten unconditionally; the group id of
the message is read but never used for the update. -/
def handleNewMessage (currentUserId : Nat) (msg : WireMsg)
    (userLastMessageTime : Nat → Option Nat) : Nat → Option Nat :=
  if msg.senderId ≠ currentUserId then
    fun k => if k = msg.senderId then some msg.createdAt else userLastMessageTime k
  else
    match msg.receiverId with
    | some r => fun k => if k = r then some msg.createdAt else userLastMessageTime k
    | none => userLastMessageTime

/-- C3 counterexample: the recency index regresses.  After a created
event from sender 1 with creation time 100, a second created event from
the same sender with the older creation time 50 overwrites the stored
value, so the timestamp for key 1 decreases from 100 to 50 even though
50 is not greater than 100. -/
theorem recencyIndex_regression :
    handleNewMessage 0 ⟨1, 1, some 0, none, none, false, false, false, 100⟩
        (fun _ => none) 1 = some 100
    ∧ handleNewMessage 0 ⟨2, 1, some 0, none, none, false, false, false, 50⟩
        (handleNewMessage 0 ⟨1, 1, some 0, none, none, false, false, false, 100⟩
          (fun _ => none)) 1 = some 50
    ∧ (50 : Nat) < 100 := by
  refine ⟨rfl, rfl, by decide⟩

/-- C3 amended: the recency index is last-writer-wins.  A created event
overwrites the stored timestamp of its key with its creation time
unconditionally, leaves every other key unchanged, and an own message
without a receiver changes nothing; monotonicity therefore holds only
for sequences applied in nondecreasing creation-time order. -/
theorem handleNewMessage_overwrite (currentUserId : Nat) (msg : WireMsg)
    (st : Nat → Option Nat) :
    (msg.senderId ≠ currentUserId →
      handleNewMessage currentUserId msg st msg.senderId = some msg.createdAt
      ∧ ∀ k, k ≠ msg.senderId → handleNewMessage currentUserId msg st k = st k)
    ∧ (msg.senderId = currentUserId →
        (∀ r, msg.receiverId = some r →
          handleNewMessage currentUserId msg st r = some msg.createdAt
          ∧ ∀ k, k ≠ r → handleNewMessage currentUserId msg st k = st k)
        ∧ (msg.receiverId = none → handleNewMessage currentUserId msg st = st)) := by
  unfold handleNewMessage
  constructor
  · intro h
    refine ⟨by simp [h], ?_⟩
    intro k hk
    simp [h, hk]
  · intro h
    constructor
    · intro r hr
      refine ⟨by simp [h, hr], ?_⟩
      intro k hk
      simp [h, hr, hk]
    · intro hr
      simp [h, hr]

theorem handleNewMessage_overwrite_witness :
    handleNewMessage 0 (⟨1, 3, some 2, none, none, false, false, false, 7⟩ : WireMsg)
        (fun _ => none) 3 = some 7
    ∧ handleNewMessage 0 (⟨1, 3, some 2, none, none, false, false, false, 7⟩ : WireMsg)
        (fun _ => none) 5 = (fun _ => (none : Option Nat)) 5 :=
  ⟨((handleNewMessage_overwrite 0
      (⟨1, 3, some 2, none, none, false, false, false, 7⟩ : WireMsg) (fun _ => none)).1
      (by decide)).1,
   ((handleNewMessage_overwrite 0
      (⟨1, 3, some 2, none, none, false, false, false, 7⟩ : WireMsg) (fun _ => none)).1
      (by decide)).2 5 (by decide)⟩

/-! ## Client subscription lifecycle

subscribeToMessages and unsubscribeFromMessages manage four module-level
handler references, the tracked socket, and the listener registrations
on the socket.  Handlers are identified by the generation number of the
subscribe call that created them; a listener registration is a triple of
socket id, event name and handler id. -/

/-- The module-level state of the chat store subscription: the four
handler references, the tracked socket, and the listener registry of
the socket runtime. -/
structure SubState where
  messageH : Option Nat
  deletedH : Option Nat
  editedH : Option Nat
  pinnedH : Option Nat
  currentSocket : Option Nat
  listeners : List (Nat × String × Nat)
deriving DecidableEq, Repr

/-- The state before any subscribe call: no handlers, no tracked socket,
no registrations. -/
def initialSub : SubState :=
  { messageH := none, deletedH := none, editedH := none, pinnedH := none,
    currentSocket := none, listeners := [] }

/-- socket.off with a concrete handler: removes the registrations of
that handler for the event on the socket. -/
def removeListener (reg : List (Nat × String × Nat)) (sock : Nat) (ev : String)
    (hid : Nat) : List (Nat × String × Nat) :=
  reg.filter (fun e => !(decide (e.1 = sock) && decide (e.2.1 = ev) && decide (e.2.2 = hid)))

/-- The guarded socket.off pattern of the store: each off call is made
only when the corresponding handler reference is non-null. -/
def offOpt (reg : List (Nat × String × Nat)) (sock : Nat) (ev : String)
    (hid : Option Nat) : List (Nat × String × Nat) :=
  match hid with
  | some h => removeListener reg sock ev h
  | none => reg

/-- Removes all four event registrations of the current handler set from
the given socket, as the unbind blocks of the store do. -/
def offAll (st : SubState) (sock : Nat) : List (Nat × String × Nat) :=
  offOpt (offOpt (offOpt (offOpt st.listeners sock "newMessage" st.messageH)
    sock "messageDeleted" st.deletedH) sock "messageEdited" st.editedH)
    sock "messagePinned" st.pinnedH

/-- subscribeToMessages of useChatStore.  Arguments: the current socket
(none when disconnected), the selected conversation (none when no chat
is open; only its presence matters to the binding logic, since the
handlers read the live state when an event arrives), and the generation
number used as the identity of the four freshly created handlers. -/
def subscribeToMessages (socketOpt : Option Nat) (selectedOpt : Option Nat)
    (fresh : Nat) (st : SubState) : SubState :=
  match socketOpt with
  | none => st
  | some socket =>
    match selectedOpt with
    | none => st
    | some _ =>
      let st1 :=
        match st.currentSocket with
        | some old =>
          if old ≠ socket then
            { st with
              listeners := offAll st old
              messageH := none
              deletedH := none
              editedH := none
              pinnedH := none }
          else st
        | none => st
      if st1.currentSocket = some socket ∧ st1.messageH ≠ none then st1
      else
        let st2 :=
          match st1.messageH with
          | some _ => { st1 with listeners := offAll st1 socket }
          | none => st1
        { st2 with
          messageH := some fresh
          deletedH := some fresh
          editedH := some fresh
          pinnedH := some fresh
          currentSocket := some socket
          listeners := st2.listeners ++
            [(socket, "newMessage", fresh), (socket, "messageDeleted", fresh),
             (socket, "messageEdited", fresh), (socket, "messagePinned", fresh)] }

/-- unsubscribeFromMessages of useChatStore: removes the four handlers
from the tracked socket, nulls the references and forgets the socket. -/
def unsubscribeFromMessages (st : SubState) : SubState :=
  match st.currentSocket with
  | none => st
  | some sock =>
    { messageH := none, deletedH := none, editedH := none, pinnedH := none,
      currentSocket := none, listeners := offAll st sock }

theorem subscribe_from_initial (k conv g : Nat) :
    subscribeToMessages (some k) (some conv) g initialSub =
      { messageH := some g, deletedH := some g, editedH := some g, pinnedH := some g,
        currentSocket := some k,
        listeners := [(k, "newMessage", g), (k, "messageDeleted", g),
                      (k, "messageEdited", g), (k, "messagePinned", g)] } := by
  simp [subscribeToMessages, initialSub]

theorem subscribe_same_socket_skip (k conv g : Nat) (st : SubState)
    (hsock : st.currentSocket = some k) (hh : st.messageH ≠ none) :
    subscribeToMessages (some k) (some conv) g st = st := by
  unfold subscribeToMessages
  rw [hsock]
  simp [hh, hsock]

/-- C8: switching the active conversation from A to B and back to A on
the same connection, running the subscribe algorithm at each switch,
leaves exactly one registration per event type on that connection, so
listener binding neither drops nor double-applies future events. -/
theorem rebind_exactly_one_listener_set (k A B g0 g1 g2 : Nat) :
    ((subscribeToMessages (some k) (some A) g2
        (subscribeToMessages (some k) (some B) g1
          (subscribeToMessages (some k) (some A) g0 initialSub))).listeners.filter
        (fun e => decide (e.1 = k) && decide (e.2.1 = "newMessage"))).length = 1
    ∧ ((subscribeToMessages (some k) (some A) g2
        (subscribeToMessages (some k) (some B) g1
          (subscribeToMessages (some k) (some A) g0 initialSub))).listeners.filter
        (fun e => decide (e.1 = k) && decide (e.2.1 = "messageDeleted"))).length = 1
    ∧ ((subscribeToMessages (some k) (some A) g2
        (subscribeToMessages (some k) (some B) g1
          (subscribeToMessages (some k) (some A) g0 initialSub))).listeners.filter
        (fun e => decide (e.1 = k) && decide (e.2.1 = "messageEdited"))).length = 1
    ∧ ((subscribeToMessages (some k) (some A) g2
        (subscribeToMessages (some k) (some B) g1
          (subscribeToMessages (some k) (some A) g0 initialSub))).listeners.filter
        (fun e => decide (e.1 = k) && decide (e.2.1 = "messagePinned"))).length = 1 := by
  have h0 := subscribe_from_initial k A g0
  have h1 : subscribeToMessages (some k) (some B) g1
      (subscribeToMessages (some k) (some A) g0 initialSub)
      = subscribeToMessages (some k) (some A) g0 initialSub :=
    subscribe_same_socket_skip k B g1 _ (by rw [h0]) (by rw [h0]; simp)
  have h2 : subscribeToMessages (some k) (some A) g2
      (subscribeToMessages (some k) (some B) g1
        (subscribeToMessages (some k) (some A) g0 initialSub))
      = subscribeToMessages (some k) (some B) g1
        (subscribeToMessages (some k) (some A) g0 initialSub) :=
    subscribe_same_socket_skip k A g2 _ (by rw [h1, h0]) (by rw [h1, h0]; simp)
  rw [h2, h1, h0]
  refine ⟨?_, ?_, ?_, ?_⟩ <;> simp [List.filter]

/-! ## Backend message store and lifecycle controllers

The controllers of message.controller.js are modelled as pure functions
from a request and the current message store (the list of stored
documents) to the new store, the list of socket emissions and the HTTP
response.  External collaborators are parameters: the classifier
(analyzeTextToxicityWithEnhancedSentiment), the media upload
(cloudinary), the socket registry (getReceiverSocketId) and group
membership (the Group collection). -/

/-- The sentiment half of a classification result, with the fields the
controller stores. -/
structure SentimentVerdict where
  value : String
  confidence : Nat
  score : Int
  source : String
  wordAnalysis : List String
  enhanced : Bool
deriving DecidableEq, Repr

/-- The toxicity half of a classification result. -/
structure ToxicityVerdict where
  isToxic : Bool
  toxicityScore : Nat
  severity : String
  categories : List String
deriving DecidableEq, Repr

/-- A full classification result as returned by the analyzer. -/
structure AnalysisResult where
  sentiment : SentimentVerdict
  toxicity : ToxicityVerdict
  sentimentOverridden : Bool
deriving DecidableEq, Repr

/-- Models the JS expression `s || dflt` on an optional string: the
default is used when the string is absent or empty (falsy). -/
def jsOr (s : Option String) (dflt : String) : String :=
  match s with
  | some v => if v = "" then dflt else v
  | none => dflt

/-- The hard-coded analysis used by sendMessage when the classifier
throws: sentiment falls back to the sentiment field of the request body
or the string neutral, toxicity to a non-toxic verdict. -/
def fallbackAnalysis (bodySentiment : Option String) : AnalysisResult :=
  { sentiment :=
      { value := jsOr bodySentiment "neutral"
        confidence := 0
        score := 0
        source := "fallback"
        wordAnalysis := []
        enhanced := false }
    toxicity := { isToxic := false, toxicityScore := 0, severity := "none", categories := [] }
    sentimentOverridden := false }

/-- The hard-coded analysis used by sendMessage when the send carries no
text to analyze. -/
def defaultAnalysis : AnalysisResult :=
  { sentiment :=
      { value := "neutral"
        confidence := 0
        score := 0
        source := "default"
        wordAnalysis := []
        enhanced := false }
    toxicity := { isToxic := false, toxicityScore := 0, severity := "none", categories := [] }
    sentimentOverridden := false }

/-- A stored message document.  Modelled from the spec: the mongoose
schema file models/message.model.js is not in the source snapshot; the
fields mirror the controller writes and the spec data model, and the
lifecycle flags default to false as the spec lifecycle requires for a
fresh message. -/
structure StoredMessage where
  id : Nat
  senderId : Nat
  receiverId : Option Nat := none
  groupId : Option Nat := none
  text : Option Token := none
  image : Option String := none
  sentiment : String
  sentimentAnalysis : SentimentVerdict
  sentimentOverridden : Bool := false
  toxicity : ToxicityVerdict
  replyTo : Option Nat := none
  isEncrypted : Bool := false
  edited : Bool := false
  isDeleted : Bool := false
  pinned : Bool := false
  createdAt : Nat
deriving DecidableEq, Repr

/-- Where a socket emission goes: a group room or a single socket. -/
inductive EmitTarget where
  | room : Nat → EmitTarget
  | sock : Nat → EmitTarget
deriving DecidableEq, Repr

/-- One socket emission: event name, destination and payload. -/
structure Emitted where
  event : String
  target : EmitTarget
  payload : StoredMessage
deriving DecidableEq, Repr

/-- The HTTP outcome of a controller call. -/
inductive ApiError where
  | validation
  | notFound
  | forbidden
deriving DecidableEq, Repr

/-- The response of a controller call: the (decrypted or updated)
message on success, an error classification otherwise. -/
inductive ApiResponse where
  | ok : StoredMessage → ApiResponse
  | err : ApiError → ApiResponse
deriving DecidableEq, Repr

/-- True on a success response. -/
def ApiResponse.isOk : ApiResponse → Bool
  | .ok _ => true
  | .err _ => false

/-- The result of one controller call: new store, emissions, response. -/
structure OpResult where
  store : List StoredMessage
  events : List Emitted
  response : ApiResponse
deriving DecidableEq, Repr

/-- The decrypt-for-emission step shared by the controllers: when the
message is marked encrypted and has truthy (non-null, non-empty) text,
the text is replaced by its decryption. -/
def decryptForSocket (m : StoredMessage) : StoredMessage :=
  match m.text with
  | some t => if m.isEncrypted && !t.isEmpty then { m with text := some (decryptCaesar t) } else m
  | none => m

/-- Models the JS expression `newText ? encryptCaesar(newText) : null`:
absent or empty (falsy) text stores null, otherwise the encryption. -/
def jsTextValue (newText : Option Token) : Option Token :=
  match newText with
  | some t => if t.isEmpty then none else some (encryptCaesar t)
  | none => none

/-- The authorization block repeated verbatim in editMessage,
deleteMessage and pinMessage: the actor may proceed when it is the
sender, the receiver of a private message, or a member of the group of
a group message.  Group membership is the external Group collection,
passed as a predicate. -/
def canModify (member : Nat → Nat → Bool) (m : StoredMessage) (userId : Nat) : Bool :=
  let isPrivateMessage := m.receiverId.isSome && m.groupId.isNone
  let isSender := decide (m.senderId = userId)
  let isReceiver := isPrivateMessage && decide (m.receiverId = some userId)
  let isGroupMember :=
    match m.groupId with
    | some g => member g userId
    | none => false
  isSender || isReceiver || isGroupMember

/-- The direct-message emission block of editMessage, deleteMessage and
pinMessage: one emission to the socket of the receiver recorded on the
message if connected, then one emission to the socket of the acting
user if connected. -/
def dmEmits (connected : Nat → Option Nat) (event : String) (payload : StoredMessage)
    (receiverIdOpt : Option Nat) (actorId : Nat) : List Emitted :=
  (match receiverIdOpt with
   | some r =>
     match connected r with
     | some s => [{ event := event, target := .sock s, payload := payload }]
     | none => []
   | none => []) ++
  (match connected actorId with
   | some s => [{ event := event, target := .sock s, payload := payload }]
   | none => [])

/-- sendMessage of message.controller.js: validation, optional media
upload, best-effort classification with hard-coded fallbacks,
encryption, store append, then emission to the group room or to the
receiver and sender sockets.  The classifier and the upload are
external collaborators passed as functions; newId and now stand for the
document id and creation timestamp the database assigns. -/
def sendMessage (classify : Token → Except Unit AnalysisResult)
    (upload : String → String) (connected : Nat → Option Nat)
    (text : Option Token) (image : Option String) (groupId : Option Nat)
    (bodySentiment : Option String) (replyTo : Option Nat)
    (receiverId senderId newId now : Nat)
    (store : List StoredMessage) : OpResult :=
  if jsBlank text && image.isNone then
    { store := store, events := [], response := .err .validation }
  else
    let uploadedImageUrl := image.map upload
    let analysisResult :=
      if !(jsBlank text) then
        match text with
        | some t =>
          match classify t with
          | .ok a => a
          | .error _ => fallbackAnalysis bodySentiment
        | none => defaultAnalysis
      else defaultAnalysis
    let encryptedText := jsTextValue text
    let newMessage : StoredMessage :=
      { id := newId
        senderId := senderId
        receiverId := if groupId.isSome then none else some receiverId
        groupId := groupId
        text := encryptedText
        image := uploadedImageUrl
        sentiment := analysisResult.sentiment.value
        sentimentAnalysis := analysisResult.sentiment
        sentimentOverridden := analysisResult.sentimentOverridden
        toxicity := analysisResult.toxicity
        replyTo := replyTo
        isEncrypted := true
        createdAt := now }
    let messageForSocket := decryptForSocket newMessage
    let events :=
      match groupId with
      | some g => [{ event := "newMessage", target := .room g, payload := messageForSocket }]
      | none =>
        (match connected receiverId with
         | some s => [{ event := "newMessage", target := .sock s, payload := messageForSocket }]
         | none => []) ++
        (match connected senderId with
         | some s => [{ event := "newMessage", target := .sock s, payload := messageForSocket }]
         | none => [])
    { store := store ++ [newMessage], events := events, response := .ok messageForSocket }

/-- editMessage of message.controller.js: lookup by id, the shared
authorization block, unvalidated re-encryption of the new text, in
place update of text and the edited flag, then emission to the group
room, or to the socket of the recorded receiver and the socket of the
acting user. -/
def editMessage (member : Nat → Nat → Bool) (connected : Nat → Option Nat)
    (messageId : Nat) (newText : Option Token) (userId : Nat)
    (store : List StoredMessage) : OpResult :=
  match store.find? (fun m => m.id = messageId) with
  | none => { store := store, events := [], response := .err .notFound }
  | some message =>
    if !(canModify member message userId) then
      { store := store, events := [], response := .err .forbidden }
    else
      let updated := { message with text := jsTextValue newText, edited := true }
      let messageForSocket := decryptForSocket updated
      let events :=
        match message.groupId with
        | some g => [{ event := "messageEdited", target := .room g, payload := messageForSocket }]
        | none => dmEmits connected "messageEdited" messageForSocket message.receiverId userId
      { store := store.map (fun m => if m.id = messageId then updated else m)
        events := events
        response := .ok messageForSocket }

/-- deleteMessage of message.controller.js: lookup, the shared
authorization block, soft delete (isDeleted true, text cleared), then
emission like editMessage.  The main text is not decrypted for the
payload (it is already null). -/
def deleteMessage (member : Nat → Nat → Bool) (connected : Nat → Option Nat)
    (messageId : Nat) (userId : Nat)
    (store : List StoredMessage) : OpResult :=
  match store.find? (fun m => m.id = messageId) with
  | none => { store := store, events := [], response := .err .notFound }
  | some message =>
    if !(canModify member message userId) then
      { store := store, events := [], response := .err .forbidden }
    else
      let updated := { message with isDeleted := true, text := none }
      let events :=
        match message.groupId with
        | some g => [{ event := "messageDeleted", target := .room g, payload := updated }]
        | none => dmEmits connected "messageDeleted" updated message.receiverId userId
      { store := store.map (fun m => if m.id = messageId then updated else m)
        events := events
        response := .ok updated }

/-- pinMessage of message.controller.js: lookup, the shared
authorization block, pin flip, then emission like editMessage. -/
def pinMessage (member : Nat → Nat → Bool) (connected : Nat → Option Nat)
    (messageId : Nat) (userId : Nat)
    (store : List StoredMessage) : OpResult :=
  match store.find? (fun m => m.id = messageId) with
  | none => { store := store, events := [], response := .err .notFound }
  | some message =>
    if !(canModify member message userId) then
      { store := store, events := [], response := .err .forbidden }
    else
      let updated := { message with pinned := !message.pinned }
      let messageForSocket := decryptForSocket updated
      let events :=
        match message.groupId with
        | some g => [{ event := "messagePinned", target := .room g, payload := messageForSocket }]
        | none => dmEmits connected "messagePinned" messageForSocket message.receiverId userId
      { store := store.map (fun m => if m.id = messageId then updated else m)
        events := events
        response := .ok messageForSocket }

/-! ## History fetch -/

/-- The conversation filter of the getMessages query: by group id, or
the symmetric sender-receiver disjunction of the direct query. -/
def matchesConversation (myId userToChatId : Nat) (groupId : Option Nat)
    (m : StoredMessage) : Bool :=
  match groupId with
  | some g => decide (m.groupId = some g)
  | none =>
    (decide (m.senderId = myId) && decide (m.receiverId = some userToChatId)) ||
    (decide (m.senderId = userToChatId) && decide (m.receiverId = some myId))

/-- The ascending creation-time order the query sorts by. -/
def byCreatedAt (a b : StoredMessage) : Prop := a.createdAt ≤ b.createdAt

instance : DecidableRel byCreatedAt :=
  fun a b => inferInstanceAs (Decidable (a.createdAt ≤ b.createdAt))

instance : IsTotal StoredMessage byCreatedAt := ⟨fun a b => Nat.le_total a.createdAt b.createdAt⟩

instance : IsTrans StoredMessage byCreatedAt := ⟨fun _ _ _ => Nat.le_trans⟩

/-- One row of the history response: the message with its text revealed,
and the populated reply-referenced message, also revealed.  Population
resolves the replyTo id against the store, as the database populate call
does. -/
structure HistoryItem where
  message : StoredMessage
  replyToMsg : Option StoredMessage
deriving DecidableEq, Repr

/-- The per-message transformation of getMessages: decrypt the text when
marked encrypted, resolve and decrypt the reply-referenced message. -/
def revealOne (store : List StoredMessage) (m : StoredMessage) : HistoryItem :=
  { message := decryptForSocket m
    replyToMsg := (m.replyTo.bind (fun rid => store.find? (fun x => x.id = rid))).map
      decryptForSocket }

/-- getMessages of message.controller.js: select the messages of the
requested conversation, sort ascending by creation time (the database
sort), and reveal each row.  Reaction aggregation is an external
collaborator and is not part of the modelled row. -/
def getMessages (store : List StoredMessage) (myId userToChatId : Nat)
    (groupId : Option Nat) : List HistoryItem :=
  (List.insertionSort byCreatedAt
      (store.filter (matchesConversation myId userToChatId groupId))).map
    (revealOne store)

theorem decryptForSocket_createdAt (m : StoredMessage) :
    (decryptForSocket m).createdAt = m.createdAt := by
  unfold decryptForSocket
  rcases m.text with _ | t
  · rfl
  · by_cases hb : (m.isEncrypted && !t.isEmpty) = true <;> simp [hb]

theorem decryptForSocket_reveals (m : StoredMessage) (t : Token)
    (henc : m.isEncrypted = true) (htext : m.text = some (encryptCaesar t)) :
    (decryptForSocket m).text = some t := by
  unfold decryptForSocket
  rw [htext]
  rcases ht : t.isEmpty with _ | _
  · have : (encryptCaesar t).isEmpty = false := by
      simp [encryptCaesar, List.isEmpty_iff] at ht ⊢
      exact ht
    simp [henc, this, decryptCaesar_encryptCaesar]
  · have hnil : t = [] := by simpa [List.isEmpty_iff] using ht
    subst hnil
    simp [encryptCaesar, htext]

/-- A neutral sentiment verdict used by the concrete sample messages. -/
def sampleSentiment : SentimentVerdict :=
  { value := "neutral", confidence := 0, score := 0, source := "default",
    wordAnalysis := [], enhanced := false }

/-- A non-toxic verdict used by the concrete sample messages. -/
def sampleToxicity : ToxicityVerdict :=
  { isToxic := false, toxicityScore := 0, severity := "none", categories := [] }

/-- C9: the history fetch returns exactly the rows obtained by revealing
the messages of the requested conversation, in ascending creation-time
order, and the reveal step recovers the original pre-obscure text of a
message stored by the send path and of its reply-referenced message. -/
theorem getMessages_sorted_and_revealed (store : List StoredMessage)
    (myId userToChatId : Nat) (groupId : Option Nat) :
    List.Sorted byCreatedAt
      ((getMessages store myId userToChatId groupId).map HistoryItem.message)
    ∧ (∀ it, it ∈ getMessages store myId userToChatId groupId ↔
        ∃ m, m ∈ store ∧ matchesConversation myId userToChatId groupId m = true
          ∧ it = revealOne store m)
    ∧ (∀ m t, m.isEncrypted = true → m.text = some (encryptCaesar t) →
        (revealOne store m).message.text = some t)
    ∧ (∀ m rid rm t, m.replyTo = some rid →
        store.find? (fun x => x.id = rid) = some rm →
        rm.isEncrypted = true → rm.text = some (encryptCaesar t) →
        ∃ rm2, (revealOne store m).replyToMsg = some rm2 ∧ rm2.text = some t) := by
  refine ⟨?_, ?_, ?_, ?_⟩
  · unfold getMessages
    rw [List.map_map]
    show List.Pairwise byCreatedAt _
    rw [List.pairwise_map]
    have hs := List.sorted_insertionSort byCreatedAt
      (store.filter (matchesConversation myId userToChatId groupId))
    refine hs.imp ?_
    intro a b hab
    show ((revealOne store a).message.createdAt ≤ (revealOne store b).message.createdAt)
    simpa [revealOne, decryptForSocket_createdAt] using hab
  · intro it
    simp only [getMessages, List.mem_map, List.mem_insertionSort, List.mem_filter]
    constructor
    · rintro ⟨m, ⟨hm, hp⟩, hit⟩
      exact ⟨m, hm, hp, hit.symm⟩
    · rintro ⟨m, hm, hp, hit⟩
      exact ⟨m, ⟨hm, hp⟩, hit.symm⟩
  · intro m t henc htext
    exact decryptForSocket_reveals m t henc htext
  · intro m rid rm t hrt hfind henc htext
    refine ⟨decryptForSocket rm, ?_, decryptForSocket_reveals rm t henc htext⟩
    simp [revealOne, hrt, hfind]

theorem getMessages_witness :
    (revealOne
        [{ id := 1, senderId := 1, receiverId := some 2,
           text := some (encryptCaesar [104, 105]), sentiment := "neutral",
           sentimentAnalysis := sampleSentiment, toxicity := sampleToxicity,
           isEncrypted := true, createdAt := 3 }]
        { id := 1, senderId := 1, receiverId := some 2,
          text := some (encryptCaesar [104, 105]), sentiment := "neutral",
          sentimentAnalysis := sampleSentiment, toxicity := sampleToxicity,
          isEncrypted := true, createdAt := 3 }).message.text = some [104, 105] :=
  (getMessages_sorted_and_revealed
    [{ id := 1, senderId := 1, receiverId := some 2,
       text := some (encryptCaesar [104, 105]), sentiment := "neutral",
       sentimentAnalysis := sampleSentiment, toxicity := sampleToxicity,
       isEncrypted := true, createdAt := 3 }] 1 2 none).2.2.1
    { id := 1, senderId := 1, receiverId := some 2,
      text := some (encryptCaesar [104, 105]), sentiment := "neutral",
      sentimentAnalysis := sampleSentiment, toxicity := sampleToxicity,
      isEncrypted := true, createdAt := 3 }
    [104, 105] rfl rfl

/-- C6: a send whose content and media are both absent is rejected with
the validation error, the store is untouched and nothing is emitted. -/
theorem sendMessage_empty_payload_rejected
    (classify : Token → Except Unit AnalysisResult) (upload : String → String)
    (connected : Nat → Option Nat) (text : Option Token) (image : Option String)
    (groupId : Option Nat) (bodySentiment : Option String) (replyTo : Option Nat)
    (receiverId senderId newId now : Nat) (store : List StoredMessage)
    (htext : text = none) (himg : image = none) :
    sendMessage classify upload connected text image groupId bodySentiment replyTo
        receiverId senderId newId now store
      = { store := store, events := [], response := .err .validation } := by
  subst htext himg
  rfl

theorem sendMessage_empty_payload_witness :
    sendMessage (fun _ => .error ()) id (fun _ => none) none none none none none
        2 1 10 100 []
      = { store := [], events := [], response := .err .validation } :=
  sendMessage_empty_payload_rejected (fun _ => .error ()) id (fun _ => none)
    none none none none none 2 1 10 100 [] rfl rfl

/-- C7 counterexample: classification fails, the request body carries
the sentiment positive, the send succeeds, and the stored sentiment
verdict is positive rather than the neutral default the claim states. -/
theorem classificationFallback_not_neutral :
    ((sendMessage (fun _ => .error ()) id (fun _ => none) (some [104, 105]) none none
        (some "positive") none 2 1 10 100 []).response.isOk = true)
    ∧ ((sendMessage (fun _ => .error ()) id (fun _ => none) (some [104, 105]) none none
        (some "positive") none 2 1 10 100 []).store.map (fun m => m.sentiment)
      = ["positive"])
    ∧ (((sendMessage (fun _ => .error ()) id (fun _ => none) (some [104, 105]) none none
        (some "positive") none 2 1 10 100 []).store.map (fun m => m.sentiment)).contains
        "neutral" = false) := by
  refine ⟨rfl, rfl, by decide⟩

/-- C7 amended: when classification fails for a non-blank text the send
still succeeds and no error is surfaced, and the stored sentiment
verdict falls back to the sentiment field of the request body when that
is present and non-empty, and to neutral otherwise. -/
theorem sendMessage_classification_failure_fallback
    (classify : Token → Except Unit AnalysisResult) (upload : String → String)
    (connected : Nat → Option Nat) (t : Token) (image : Option String)
    (groupId : Option Nat) (bodySentiment : Option String) (replyTo : Option Nat)
    (receiverId senderId newId now : Nat) (store : List StoredMessage)
    (hfail : classify t = .error ()) (hblank : jsBlank (some t) = false) :
    ((sendMessage classify upload connected (some t) image groupId bodySentiment replyTo
        receiverId senderId newId now store).response.isOk = true)
    ∧ ∃ mNew, (sendMessage classify upload connected (some t) image groupId bodySentiment
          replyTo receiverId senderId newId now store).store = store ++ [mNew]
        ∧ mNew.sentiment = jsOr bodySentiment "neutral"
        ∧ mNew.sentimentAnalysis.source = "fallback" := by
  unfold sendMessage
  simp only [hblank, Bool.false_and, Bool.false_eq_true, if_false, Bool.not_false,
    if_true, hfail]
  exact ⟨rfl, ⟨_, rfl, rfl, rfl⟩⟩

theorem sendMessage_classification_fallback_witness :
    ((sendMessage (fun _ => .error ()) id (fun _ => none) (some [104]) none none
        none none 2 1 10 100 []).response.isOk = true)
    ∧ ∃ mNew, (sendMessage (fun _ => .error ()) id (fun _ => none) (some [104]) none none
          none none 2 1 10 100 []).store = [] ++ [mNew]
        ∧ mNew.sentiment = jsOr none "neutral"
        ∧ mNew.sentimentAnalysis.source = "fallback" :=
  sendMessage_classification_failure_fallback (fun _ => .error ()) id (fun _ => none)
    [104] none none none none 2 1 10 100 [] rfl (by decide)

theorem find?_map_const (l : List StoredMessage) (mid : Nat) (m c : StoredMessage)
    (hc : c.id = mid)
    (h : l.find? (fun x => x.id = mid) = some m) :
    (l.map (fun x => if x.id = mid then c else x)).find? (fun x => x.id = mid) = some c := by
  induction l with
  | nil => simp at h
  | cons a l ih =>
    by_cases ha : a.id = mid
    · simp [List.find?_cons, ha, hc]
    · rw [List.find?_cons_of_neg _ (by simpa using ha)] at h
      simp only [List.map_cons, if_neg ha]
      rw [List.find?_cons_of_neg _ (by simpa using ha)]
      exact ih h

/-- C5: an authorized soft delete of an existing message succeeds,
leaves a stored entry with the deleted flag set and the content token
cleared (so the reveal step yields nothing), and keeps the media
reference and both classification verdicts unchanged. -/
theorem deleteMessage_tombstone (member : Nat → Nat → Bool) (connected : Nat → Option Nat)
    (store : List StoredMessage) (messageId userId : Nat) (m : StoredMessage)
    (hfind : store.find? (fun x => x.id = messageId) = some m)
    (hauth : canModify member m userId = true) :
    ((deleteMessage member connected messageId userId store).response.isOk = true)
    ∧ ∃ m2, (deleteMessage member connected messageId userId store).store.find?
          (fun x => x.id = messageId) = some m2
        ∧ m2.isDeleted = true ∧ m2.text = none
        ∧ (decryptForSocket m2).text = none
        ∧ m2.image = m.image ∧ m2.sentiment = m.sentiment
        ∧ m2.sentimentAnalysis = m.sentimentAnalysis ∧ m2.toxicity = m.toxicity := by
  have hid : m.id = messageId := by simpa using List.find?_some hfind
  unfold deleteMessage
  rw [hfind]
  simp only [hauth, Bool.not_true, Bool.false_eq_true, if_false]
  exact ⟨rfl, ⟨{ m with isDeleted := true, text := none },
    find?_map_const store messageId m _ hid hfind, rfl, rfl, rfl, rfl, rfl, rfl, rfl⟩⟩

/-- A sample direct message used to instantiate the soft-delete claim. -/
def delSample : StoredMessage :=
  { id := 7, senderId := 1, receiverId := some 2, text := some (encryptCaesar [97]),
    image := some "http-img", sentiment := "neutral", sentimentAnalysis := sampleSentiment,
    toxicity := sampleToxicity, isEncrypted := true, createdAt := 4 }

theorem deleteMessage_tombstone_witness :
    ((deleteMessage (fun _ _ => false) (fun _ => none) 7 1 [delSample]).response.isOk = true)
    ∧ ∃ m2, (deleteMessage (fun _ _ => false) (fun _ => none) 7 1 [delSample]).store.find?
          (fun x => x.id = 7) = some m2
        ∧ m2.isDeleted = true ∧ m2.text = none
        ∧ (decryptForSocket m2).text = none
        ∧ m2.image = delSample.image ∧ m2.sentiment = delSample.sentiment
        ∧ m2.sentimentAnalysis = delSample.sentimentAnalysis
        ∧ m2.toxicity = delSample.toxicity :=
  deleteMessage_tombstone (fun _ _ => false) (fun _ => none) [delSample] 7 1 delSample
    (by decide) (by decide)

/-- C10: edit performs no content validation.  An authorized edit of an
existing message with absent or empty new text succeeds, stores a null
content token, sets the edited flag, and still emits an edited event
(to the group room, or to the connected acting user for a direct
message). -/
theorem editMessage_accepts_empty_text (member : Nat → Nat → Bool)
    (connected : Nat → Option Nat) (store : List StoredMessage)
    (messageId userId : Nat) (m : StoredMessage) (newText : Option Token)
    (hfind : store.find? (fun x => x.id = messageId) = some m)
    (hauth : canModify member m userId = true)
    (hempty : newText = none ∨ newText = some [])
    (hconn : m.groupId = none → connected userId ≠ none) :
    ((editMessage member connected messageId newText userId store).response.isOk = true)
    ∧ (∃ m2, (editMessage member connected messageId newText userId store).store.find?
          (fun x => x.id = messageId) = some m2
        ∧ m2.text = none ∧ m2.edited = true)
    ∧ (editMessage member connected messageId newText userId store).events ≠ [] := by
  have hid : m.id = messageId := by simpa using List.find?_some hfind
  have htv : jsTextValue newText = none := by
    rcases hempty with h | h <;> simp [h, jsTextValue]
  unfold editMessage
  rw [hfind]
  simp only [hauth, Bool.not_true, Bool.false_eq_true, if_false]
  refine ⟨rfl, ⟨{ m with text := jsTextValue newText, edited := true },
    find?_map_const store messageId m _ hid hfind, by simp [htv], rfl⟩, ?_⟩
  rcases hg : m.groupId with _ | g
  · rcases hc : connected userId with _ | s
    · exact absurd hc (hconn hg)
    · rcases m.receiverId with _ | r
      · simp [hg, dmEmits, hc]
      · simp only [hg, dmEmits, hc]
        intro hcontra
        rcases List.append_eq_nil.mp hcontra with ⟨_, h2⟩
        simp at h2
  · simp [hg]

/-- A sample direct message used to instantiate the empty-edit claim. -/
def editSample : StoredMessage :=
  { id := 9, senderId := 1, receiverId := some 2, text := some (encryptCaesar [97]),
    sentiment := "neutral", sentimentAnalysis := sampleSentiment,
    toxicity := sampleToxicity, isEncrypted := true, createdAt := 4 }

theorem editMessage_accepts_empty_text_witness :
    ((editMessage (fun _ _ => false) (fun u => some (200 + u)) 9 none 1
        [editSample]).response.isOk = true)
    ∧ (∃ m2, (editMessage (fun _ _ => false) (fun u => some (200 + u)) 9 none 1
          [editSample]).store.find? (fun x => x.id = 9) = some m2
        ∧ m2.text = none ∧ m2.edited = true)
    ∧ ((editMessage (fun _ _ => false) (fun u => some (200 + u)) 9 none 1
        [editSample]).events.length = 2) :=
  ⟨(editMessage_accepts_empty_text (fun _ _ => false) (fun u => some (200 + u))
      [editSample] 9 1 editSample none (by decide) (by decide) (Or.inl rfl)
      (fun _ => by decide)).1,
   (editMessage_accepts_empty_text (fun _ _ => false) (fun u => some (200 + u))
      [editSample] 9 1 editSample none (by decide) (by decide) (Or.inl rfl)
      (fun _ => by decide)).2.1,
   by decide⟩

/-- A sample direct message from sender 1 to receiver 2 used for the
audience demonstration. -/
def c1Sample : StoredMessage :=
  { id := 10, senderId := 1, receiverId := some 2,
    text := some (encryptCaesar [104, 105]), sentiment := "neutral",
    sentimentAnalysis := sampleSentiment, toxicity := sampleToxicity,
    isEncrypted := true, createdAt := 5 }

/-- C1 failing input: a direct message from sender 1 to receiver 2 is
edited by the receiver (an authorized actor) while both participants
are connected (user u on socket 100 + u).  The edit succeeds, but both
emissions go to the socket of the receiver and none to the socket of
the sender, because the controller looks up the socket of the acting
user where the claim requires the sender of the message. -/
theorem editMessage_actor_substituted_for_sender :
    ((editMessage (fun _ _ => false) (fun u => some (100 + u)) 10 (some [106]) 2
        [c1Sample]).response.isOk = true)
    ∧ ((editMessage (fun _ _ => false) (fun u => some (100 + u)) 10 (some [106]) 2
        [c1Sample]).events.map (fun e => e.target) = [.sock 102, .sock 102])
    ∧ (((editMessage (fun _ _ => false) (fun u => some (100 + u)) 10 (some [106]) 2
        [c1Sample]).events.map (fun e => e.target)).count (EmitTarget.sock 101) = 0) := by
  refine ⟨rfl, rfl, by decide⟩
